import Mathlib

set_option maxRecDepth 4000

/-!
Verification of the tubefetch ingestion core.

This file gives a shallow embedding, in Lean 4, of the parts of the
repository that the specification's claims are about:

* `cache_service.py` — `CacheService.should_skip_query` (skip markers);
* `youtube_service.py` — `YouTubeService._track_api_usage` (per-credential
  daily quota ledger), `_switch_api_key`, and the whole of `fetch_videos`
  (first-page cache short-circuit, quota-mirror check, remote search call,
  batched detail call, the upsert loop with its stored-count accounting,
  the per-step `db.session.commit()` calls, and the HttpError handler with
  its recursive credential failover);
* `models.py` — the `Video` and `APIKeyUsage` rows;
* `background_fetcher.py` — `BackgroundVideoFetcher.start` / `stop` and the
  body of `_fetch_loop` (query rotation, error-text matching, backoff).

Machine-level effects (the HTTP transport, Redis, SQLAlchemy) are
represented by explicit inputs and by a trace of `DBEvent`s: remote calls,
ledger writes, upsert writes, query-fetch-state writes and transaction
commits, listed in exactly the order the Python source performs them.
Timestamps are integers (seconds); calendar dates are natural numbers
(day ordinals), which is faithful because the source only ever compares
dates with `<` and timestamp differences with `timedelta` bounds.
-/

/-! ### Strings: Python's `sub in s` and `s.lower()` -/

/-- Model of Python's substring containment `needle in hay`
(scan of every suffix of the haystack). -/
def containsSub (needle : List Char) : List Char → Bool
  | [] => needle.isEmpty
  | c :: t => needle.isPrefixOf (c :: t) || containsSub needle t

/-- `strContains hay needle` is Python's `needle in hay` on strings. -/
def strContains (hay needle : String) : Bool :=
  containsSub needle.data hay.data

/-- Model of Python's `str.lower()` (per-character lowercase; the source only
lowercases ASCII error messages). -/
def strLower (s : String) : String :=
  String.mk (s.data.map Char.toLower)

/-! ### `models.APIKeyUsage` and `YouTubeService._track_api_usage` -/

/-- An `APIKeyUsage` ledger row (models.py lines 40-47): quota units used
since the last reset, the last-reset date (a day ordinal), and the
exhausted flag.  The row keyed by the credential's hash. -/
structure APIKeyUsage where
  quota_used : Nat
  last_reset : Nat
  is_exhausted : Bool
deriving Repr, DecidableEq

/-- `YouTubeService._track_api_usage` (youtube_service.py lines 53-79) acting
on the ledger row of the active credential.  `row = none` models the row
being absent (then a fresh row is created; its `last_reset` is unset, so the
new-day branch initialises it exactly as the source does).  Steps, in source
order: reset the row if its last-reset date is older than today, add the
quota cost, and set the exhausted flag once usage reaches 9500. -/
def trackApiUsage (row : Option APIKeyUsage) (today : Nat) (quota_cost : Nat) : APIKeyUsage :=
  let u : APIKeyUsage :=
    match row with
    | none => { quota_used := 0, last_reset := today, is_exhausted := false }
    | some u0 =>
        if u0.last_reset < today then
          { quota_used := 0, last_reset := today, is_exhausted := false }
        else u0
  let u1 : APIKeyUsage := { u with quota_used := u.quota_used + quota_cost }
  if 9500 ≤ u1.quota_used then { u1 with is_exhausted := true } else u1

/-- A fresh ledger row: zero usage, last reset today, not exhausted. -/
def freshUsage (today : Nat) : APIKeyUsage :=
  { quota_used := 0, last_reset := today, is_exhausted := false }

/-- `N` successive `_track_api_usage` calls with the same cost, starting from
a fresh row, all on the same day. -/
def iterTrack (today quota_cost : Nat) : Nat → APIKeyUsage
  | 0 => freshUsage today
  | n + 1 => trackApiUsage (some (iterTrack today quota_cost n)) today quota_cost

/-! ### `CacheService.should_skip_query` -/

/-- A skip-marker as stored under `skip:{query}` (cache_service.py lines
149-167): timestamp of the last attempt and the new-video count it
recorded. -/
structure SkipMarker where
  last_attempt : Int
  new_videos : Int
deriving Repr, DecidableEq

/-- The state the skip-marker lookup can observe: the Redis client is `None`
(`unavailable`), the lookup raises (`backendError`, caught at lines
144-145), or the key holds `m` (with `marker none` for an absent key). -/
inductive CacheBackend where
  | unavailable
  | backendError
  | marker (m : Option SkipMarker)
deriving Repr, DecidableEq

/-- `CacheService.should_skip_query` (cache_service.py lines 125-147): true
only when a marker exists, is younger than `hours_threshold` hours
(strictly), and recorded zero new videos; false on a missing client, on any
backend error, and on a missing marker.  `now` is the current timestamp in
seconds, so `timedelta(hours=h)` is `h * 3600`. -/
def should_skip_query (b : CacheBackend) (now : Int) (hours_threshold : Nat) : Bool :=
  match b with
  | .unavailable => false
  | .backendError => false
  | .marker none => false
  | .marker (some m) =>
      decide (now - m.last_attempt < (hours_threshold : Int) * 3600)
        && decide (m.new_videos = 0)

/-! ### `models.Video` and the upsert loop of `fetch_videos` -/

/-- The snippet-derived fields of one search result (youtube_service.py
lines 147-157): these eight keys are always present in `video_data`. -/
structure Snippet where
  title : String
  description : String
  published_at : Nat
  thumbnail_default : String
  thumbnail_medium : String
  thumbnail_high : String
  channel_id : String
  channel_title : String
deriving Repr, DecidableEq

/-- One `video_data` dict as built by `fetch_videos`: the external id, the
snippet fields, and the detail fields `duration` / `view_count`, which are
present (`some`) only when the batched detail call returned an entry for
this id (lines 180-182). -/
structure VideoData where
  video_id : String
  snippet : Snippet
  duration : Option String
  view_count : Option Int
deriving Repr, DecidableEq

/-- A stored `Video` row (models.py lines 5-19).  `duration` and
`view_count` are nullable columns; `created_at` is set on insert and never
touched by the update path. -/
structure VideoRow where
  video_id : String
  snippet : Snippet
  duration : Option String
  view_count : Option Int
  created_at : Nat
deriving Repr, DecidableEq

/-- Row inserted for a new id (`Video(**video_data)`, line 189): absent dict
keys leave the nullable columns at their default `None`; `created_at`
defaults to the current time `now`. -/
def insertRow (d : VideoData) (now : Nat) : VideoRow :=
  { video_id := d.video_id, snippet := d.snippet, duration := d.duration,
    view_count := d.view_count, created_at := now }

/-- The update path (lines 193-196): every key present in `video_data`
except `video_id` is written onto the existing row; keys absent from the
dict (the detail fields when the detail call had no entry) leave the old
column values; `created_at` is not a key of `video_data`, so it survives. -/
def updateRow (r : VideoRow) (d : VideoData) : VideoRow :=
  { r with
    snippet := d.snippet,
    duration := match d.duration with | some x => some x | none => r.duration,
    view_count := match d.view_count with | some x => some x | none => r.view_count }

/-- `Video.query.filter_by(video_id=...).first()` followed by the setattr
loop: update the first row with the matching id (the column is unique, so
at most one row matches). -/
def updateFirst (d : VideoData) : List VideoRow → List VideoRow
  | [] => []
  | r :: rest =>
      if r.video_id == d.video_id then updateRow r d :: rest
      else r :: updateFirst d rest

/-- One iteration of the storing loop (lines 186-196): look up by external
id; insert when absent (returning `true`, counted into `stored_count`),
otherwise update in place (returning `false`). -/
def upsert (store : List VideoRow) (d : VideoData) (now : Nat) : List VideoRow × Bool :=
  match store.find? (fun r => r.video_id == d.video_id) with
  | none => (store ++ [insertRow d now], true)
  | some _ => (updateFirst d store, false)

/-- The whole storing loop (lines 185-196): fold the upsert over the batch,
counting only newly created rows into `stored_count`. -/
def storeVideos (store : List VideoRow) (vids : List VideoData) (now : Nat) :
    List VideoRow × Nat :=
  vids.foldl
    (fun acc d =>
      let p := upsert acc.1 d now
      (p.1, if p.2 then acc.2 + 1 else acc.2))
    (store, 0)

/-! ### `YouTubeService.fetch_videos` -/

/-- The externally visible effects of one `fetch_videos` cycle, in the order
the source performs them.  `ledgerWrite k c` is a `_track_api_usage(c)` call
for credential `k`; `commit` is a `db.session.commit()`. -/
inductive DBEvent where
  | remoteSearch (key : Nat)
  | remoteDetails (key : Nat) (num_ids : Nat)
  | ledgerWrite (key : Nat) (cost : Nat)
  | upsertWrite (video_id : String)
  | fetchStateWrite (query : String)
  | commit
deriving Repr, DecidableEq

/-- A successful `search().list` response: the returned items (external id +
snippet) and the continuation token. -/
structure SearchOk where
  items : List (String × Snippet)
  nextPageToken : Option String
deriving Repr, DecidableEq

/-- Outcome of the `search().list` call made with a given credential:
success, or an `HttpError` with its status and its string rendering
(`str(e)`, the thing line 226 tests for `'quotaExceeded'`). -/
inductive SearchOutcome where
  | ok (r : SearchOk)
  | httpErr (status : Nat) (body : String)
deriving Repr, DecidableEq

/-- Outcome of the follow-up `videos().list` detail call made with a given
credential: the detail rows (id, duration, view count), or an `HttpError`.
The `except HttpError` at line 221 covers this call too, and it runs after
the 100-unit search charge has already been committed. -/
inductive DetailOutcome where
  | ok (details : List (String × String × Int))
  | httpErr (status : Nat) (body : String)
deriving Repr, DecidableEq

/-- The result of `fetch_videos` as seen by its caller: the three
first-return dictionaries (lines 101, 107, 214-219) and the two raised
exceptions (lines 114/232 and 234), plus the guard of line 94. -/
inductive FetchOutcome where
  | skipped (items : List VideoData)
  | cachedHit (items : List VideoData)
  | success (items : List VideoData) (nextPageToken : Option String) (stored_count : Nat)
  | allKeysExhausted
  | apiError (status : Nat) (body : String)
  | notInitialized
deriving Repr, DecidableEq

/-- The environment one fetch runs against: the skip-marker verdict
(`cache_service.should_skip_query`, modelled by `should_skip_query` above),
the Redis search-result cache for the query, the Redis quota mirror per
credential index (`get_quota_usage(...)['quota_exhausted']`), and the
remote API's behaviour per credential index. -/
structure FetchEnv where
  shouldSkip : Bool
  cachedResults : Option (List VideoData)
  quotaMirror : Nat → Bool
  search : Nat → SearchOutcome
  details : Nat → DetailOutcome

/-- Lookup in `details_map` (lines 171-177): the map is built by inserting
detail rows in order, later rows overwriting earlier ones, hence the lookup
finds the last occurrence. -/
def lookupDetail (details : List (String × String × Int)) (vid : String) :
    Option (String × Int) :=
  match details.reverse.find? (fun p => p.1 == vid) with
  | some p => some p.2
  | none => none

/-- Build one `video_data` entry (lines 147-159 merged with 180-182): the
snippet fields, plus the detail fields when `details_map` has the id. -/
def buildVideoData (details : List (String × String × Int)) (it : String × Snippet) :
    VideoData :=
  match lookupDetail details it.1 with
  | some p =>
      { video_id := it.1, snippet := it.2, duration := some p.1, view_count := some p.2 }
  | none =>
      { video_id := it.1, snippet := it.2, duration := none, view_count := none }

/-- Body of `fetch_videos` (youtube_service.py lines 96-234), including the
recursive retry of line 230.  `idx` is `current_key_index`; `fuel` bounds
the recursion depth and is passed as `numKeys - idx` by `fetch_videos`
below — faithful because every retry strictly increases the key index and
is guarded by `index < numKeys`, so the `fuel = 0` default is never reached
from a live credential.  Steps, in source order:
first-page skip-marker and search-cache checks (98-107); quota-mirror check
with one `_switch_api_key` (109-114); the search call (120-128); on its
success the 100-unit charge with its own commit (130); when ids were
returned, the batched detail call (162-166), and on its success the 1-unit
charge with its own commit (168); the upsert loop and its commit (184-198);
the `SearchCache` update and its commit (200-210).  The `except HttpError`
handler (221-234) covers the whole try block, so it catches a failing
search call and equally a failing detail call — in the latter case the
100-unit search charge has already been committed before the failure.  In
either case: on a 403 whose rendering contains `quotaExceeded`, advance the
key and, when one remains, re-run the whole fetch, else fail with
all-keys-exhausted; any other `HttpError` is raised to the caller with no
retry.  (The handler's branch appears once per failing call here because
each match arm carries the events already performed by its attempt.) -/
def fetchVideosAux (env : FetchEnv) (numKeys : Nat) (q : String)
    (pageToken : Option String) (now : Nat) :
    Nat → Nat → List VideoRow → FetchOutcome × List VideoRow × List DBEvent
  | 0, _, store => (.allKeysExhausted, store, [])
  | fuel + 1, idx, store =>
    if pageToken.isNone && env.shouldSkip then
      (.skipped [], store, [])
    else if pageToken.isNone && env.cachedResults.isSome then
      (.cachedHit (env.cachedResults.getD []), store, [])
    else
      let idxOpt : Option Nat :=
        if env.quotaMirror idx then
          (if idx + 1 < numKeys then some (idx + 1) else none)
        else some idx
      match idxOpt with
      | none => (.allKeysExhausted, store, [])
      | some idx1 =>
        match env.search idx1 with
        | .ok r =>
            let searchEvs : List DBEvent :=
              [.remoteSearch idx1, .ledgerWrite idx1 100, .commit]
            if r.items.isEmpty then
              -- no ids returned: the detail call is skipped (line 162); the
              -- empty store loop, its commit and the SearchCache update run
              let sp := storeVideos store [] now
              (.success [] r.nextPageToken sp.2, sp.1,
                searchEvs ++ [DBEvent.commit, .fetchStateWrite q, .commit])
            else
              match env.details idx1 with
              | .ok ds =>
                  let videos := r.items.map (buildVideoData ds)
                  let detailEvs : List DBEvent :=
                    [.remoteDetails idx1 r.items.length, .ledgerWrite idx1 1, .commit]
                  let sp := storeVideos store videos now
                  let upsertEvs : List DBEvent :=
                    videos.map (fun v => DBEvent.upsertWrite v.video_id) ++ [DBEvent.commit]
                  let stateEvs : List DBEvent := [.fetchStateWrite q, .commit]
                  (.success videos r.nextPageToken sp.2, sp.1,
                    searchEvs ++ detailEvs ++ upsertEvs ++ stateEvs)
              | .httpErr status body =>
                  -- the detail call failed after the 100-unit charge was
                  -- already committed; no further ledger write happens
                  let prefixEvs : List DBEvent :=
                    searchEvs ++ [.remoteDetails idx1 r.items.length]
                  if status == 403 && strContains body "quotaExceeded" then
                    if idx1 + 1 < numKeys then
                      let res :=
                        fetchVideosAux env numKeys q pageToken now fuel (idx1 + 1) store
                      (res.1, res.2.1, prefixEvs ++ res.2.2)
                    else (.allKeysExhausted, store, prefixEvs)
                  else (.apiError status body, store, prefixEvs)
        | .httpErr status body =>
            if status == 403 && strContains body "quotaExceeded" then
              if idx1 + 1 < numKeys then
                let res := fetchVideosAux env numKeys q pageToken now fuel (idx1 + 1) store
                (res.1, res.2.1, .remoteSearch idx1 :: res.2.2)
              else (.allKeysExhausted, store, [.remoteSearch idx1])
            else (.apiError status body, store, [.remoteSearch idx1])

/-- `fetch_videos` proper: the `if not self.youtube` guard (line 93 — the
client is only missing when no key was configured), then the body with
recursion depth bounded by the credentials remaining at or after `idx`. -/
def fetch_videos (env : FetchEnv) (numKeys : Nat) (q : String)
    (pageToken : Option String) (now : Nat) (idx : Nat) (store : List VideoRow) :
    FetchOutcome × List VideoRow × List DBEvent :=
  if numKeys = 0 then (.notInitialized, store, [])
  else fetchVideosAux env numKeys q pageToken now (numKeys - idx) idx store

/-- Replay the ledger writes of a trace onto the credential ledger (one
optional row per credential index), each through `_track_api_usage`. -/
def applyEvents (today : Nat) :
    List (Option APIKeyUsage) → List DBEvent → List (Option APIKeyUsage)
  | ledger, [] => ledger
  | ledger, e :: rest =>
      match e with
      | .ledgerWrite k cost =>
          applyEvents today
            (ledger.set k (some (trackApiUsage (ledger.getD k none) today cost))) rest
      | _ => applyEvents today ledger rest

/-- Number of remote search calls in a trace (the attempts of one fetch). -/
def searchCount (evs : List DBEvent) : Nat :=
  evs.countP (fun e => match e with | .remoteSearch _ => true | _ => false)

/-- Number of `db.session.commit()` calls in a trace. -/
def commitCount (evs : List DBEvent) : Nat :=
  evs.countP (fun e => match e with | .commit => true | _ => false)

/-- The batched detail calls of a trace, as (credential, ids requested). -/
def detailCalls (evs : List DBEvent) : List (Nat × Nat) :=
  evs.filterMap (fun e => match e with | .remoteDetails k n => some (k, n) | _ => none)

/-- The quota charges of a trace, as (credential, cost), in order. -/
def ledgerCharges (evs : List DBEvent) : List (Nat × Nat) :=
  evs.filterMap (fun e => match e with | .ledgerWrite k c => some (k, c) | _ => none)

/-- Every credential index mentioned by the event is at least `j` (used to
show a failed credential's ledger is never written again). -/
def evKeyGeB (j : Nat) (e : DBEvent) : Bool :=
  match e with
  | .remoteSearch k => decide (j ≤ k)
  | .remoteDetails k _ => decide (j ≤ k)
  | .ledgerWrite k _ => decide (j ≤ k)
  | .upsertWrite _ => true
  | .fetchStateWrite _ => true
  | .commit => true

/-! ### `BackgroundVideoFetcher._fetch_loop` -/

/-- What one `fetch_videos` call inside the loop produced: a result (with
its `stored_count`) or a raised exception's message. -/
inductive IterOutcome where
  | ok (stored_count : Nat)
  | err (msg : String)
deriving Repr, DecidableEq

/-- The message of the exception `fetch_videos` raises when the credential
list is exhausted (youtube_service.py lines 114 and 232). -/
def allExhaustedMsg : String := "All API keys exhausted"

/-- The sleeps one loop iteration performs after its fetch
(background_fetcher.py lines 66-77): an error whose lowered text contains
"exhausted" or "quota" sleeps 3600 seconds and `continue`s past the normal
sleep; every other path falls through to the normal `fetch_interval`
sleep. -/
def iterSleeps (outcome : IterOutcome) (fetch_interval : Nat) : List Nat :=
  match outcome with
  | .ok _ => [fetch_interval]
  | .err msg =>
      if strContains (strLower msg) "exhausted" || strContains (strLower msg) "quota" then
        [3600]
      else [fetch_interval]

/-- One iteration of `_fetch_loop` (lines 45-77): pick the query at
`query_index % len`, advance the index (line 51, before the fetch, hence
unconditionally), run the fetch, then sleep per `iterSleeps`.  Returns the
new index, the query fetched, and the sleeps performed. -/
def schedIter (queries : List String) (fetchOutcome : String → IterOutcome)
    (fetch_interval : Nat) (query_index : Nat) : Nat × String × List Nat :=
  let q := queries.getD (query_index % queries.length) ""
  (query_index + 1, q, iterSleeps (fetchOutcome q) fetch_interval)

/-- `n` iterations of the loop from index 0: final index and the queries
fetched, in order. -/
def schedRun (queries : List String) (fetchOutcome : String → IterOutcome)
    (fetch_interval : Nat) : Nat → Nat × List String
  | 0 => (0, [])
  | n + 1 =>
      let p := schedRun queries fetchOutcome fetch_interval n
      let s := schedIter queries fetchOutcome fetch_interval p.1
      (s.1, p.2 ++ [s.2.1])

/-! ### `BackgroundVideoFetcher.start` / `stop` -/

/-- The scheduler's state: the `running` flag, the `thread` handle (an id),
a counter minting worker ids, and how many worker threads are currently
alive. -/
structure FetcherState where
  running : Bool
  thread : Option Nat
  next_id : Nat
  alive : Nat
deriving Repr, DecidableEq

/-- `BackgroundVideoFetcher.__init__` (lines 20-21): not running, no
thread. -/
def initFetcher : FetcherState :=
  { running := false, thread := none, next_id := 0, alive := 0 }

/-- `start` (lines 23-32): when already running, log and return with the
state untouched; otherwise set the flag and spawn one worker thread. -/
def startFetcher (s : FetcherState) : FetcherState :=
  if s.running then s
  else
    { running := true, thread := some s.next_id, next_id := s.next_id + 1,
      alive := s.alive + 1 }

/-- `stop` (lines 34-39): clear the flag and join the thread; the worker's
loop runs `while self.running`, so after the join no worker survives. -/
def stopFetcher (s : FetcherState) : FetcherState :=
  { s with running := false, alive := 0 }

/-- The operations a client can perform on the scheduler. -/
inductive FetcherOp where
  | startOp
  | stopOp
deriving Repr, DecidableEq

/-- Apply one operation. -/
def applyOp (s : FetcherState) : FetcherOp → FetcherState
  | .startOp => startFetcher s
  | .stopOp => stopFetcher s

/-- Run a sequence of start/stop calls. -/
def runOps (ops : List FetcherOp) (s : FetcherState) : FetcherState :=
  ops.foldl applyOp s

/-! ### Concrete instances used by witnesses and counterexamples -/

/-- A concrete snippet. -/
def snipA : Snippet :=
  { title := "t1", description := "d1", published_at := 100,
    thumbnail_default := "u1", thumbnail_medium := "u2", thumbnail_high := "u3",
    channel_id := "c1", channel_title := "ch1" }

/-- A second concrete snippet, differing from `snipA` in every text field. -/
def snipB : Snippet :=
  { title := "t2", description := "d2", published_at := 200,
    thumbnail_default := "w1", thumbnail_medium := "w2", thumbnail_high := "w3",
    channel_id := "c2", channel_title := "ch2" }

/-- The `str(e)` of a quota-exceeded `HttpError`. -/
def bodyQuota : String := "HttpError 403 quotaExceeded for url"

/-- A successful search response carrying two items. -/
def searchOkTwo : SearchOk :=
  { items := [("va", snipA), ("vb", snipB)], nextPageToken := none }

/-- The detail rows the `videos().list` call returns for those two ids. -/
def detailsTwo : List (String × String × Int) :=
  [("va", "PT1M", 5), ("vb", "PT2M", 7)]

/-- Environment for the failover runs: the search call with credential 0
answers with a quota-exceeded 403, credential 1 succeeds; detail calls
succeed; no skip marker, no cached results, the quota mirror reports
nothing exhausted. -/
def envFailover : FetchEnv :=
  { shouldSkip := false, cachedResults := none,
    quotaMirror := fun _ => false,
    search := fun k => if k = 0 then .httpErr 403 bodyQuota else .ok searchOkTwo,
    details := fun _ => .ok detailsTwo }

/-- Environment in which the search call always succeeds but the detail
call with credential 0 answers with a quota-exceeded 403 — after the
100-unit search charge has been committed. -/
def envDetailFail : FetchEnv :=
  { shouldSkip := false, cachedResults := none,
    quotaMirror := fun _ => false,
    search := fun _ => .ok searchOkTwo,
    details := fun k => if k = 0 then .httpErr 403 bodyQuota else .ok detailsTwo }

/-- Environment for the plain successful runs: both calls succeed with
every credential. -/
def envOk : FetchEnv :=
  { shouldSkip := false, cachedResults := none,
    quotaMirror := fun _ => false,
    search := fun _ => .ok searchOkTwo,
    details := fun _ => .ok detailsTwo }

/-- Environment in which the skip-marker check succeeds. -/
def envSkip : FetchEnv :=
  { shouldSkip := true, cachedResults := none,
    quotaMirror := fun _ => false,
    search := fun _ => .ok searchOkTwo,
    details := fun _ => .ok detailsTwo }

/-- A first ingestion of external id "v": no detail fields yet. -/
def vidD1 : VideoData :=
  { video_id := "v", snippet := snipA, duration := none, view_count := none }

/-- A re-ingestion of external id "v" with different mutable fields. -/
def vidD2 : VideoData :=
  { video_id := "v", snippet := snipB, duration := some "PT1M", view_count := some 5 }

/-! ## Theorems -/

/-- C3: `_track_api_usage` applied `N` times with cost `C` to a fresh ledger
row (zero usage, last reset today) yields usage exactly `N * C`, with the
exhausted flag set iff `N * C ≥ 9500`; and any call on a row whose
last-reset date is older than today first resets usage and the exhausted
flag before adding the new cost. -/
theorem track_usage_accumulates (today C N : Nat) :
    (iterTrack today C N).quota_used = N * C ∧
    (iterTrack today C N).is_exhausted = decide (9500 ≤ N * C) ∧
    (∀ u : APIKeyUsage, u.last_reset < today →
      trackApiUsage (some u) today C =
        { quota_used := C, last_reset := today, is_exhausted := decide (9500 ≤ C) }) := by
  have key : ∀ n : Nat,
      iterTrack today C n =
        { quota_used := n * C, last_reset := today,
          is_exhausted := decide (9500 ≤ n * C) } := by
    intro n
    induction n with
    | zero => simp [iterTrack, freshUsage]
    | succ n ih =>
        rw [iterTrack, ih]
        simp only [trackApiUsage, Nat.lt_irrefl, if_false]
        by_cases h : 9500 ≤ n * C + C
        · rw [if_pos h]
          simp [Nat.succ_mul, decide_eq_true (by omega : 9500 ≤ n * C + C)]
        · rw [if_neg h]
          simp only [Nat.succ_mul]
          rw [decide_eq_false (by omega : ¬ 9500 ≤ n * C),
            decide_eq_false (by omega : ¬ 9500 ≤ n * C + C)]
  refine ⟨by rw [key], by rw [key], ?_⟩
  intro u hu
  simp only [trackApiUsage, if_pos hu]
  by_cases h : 9500 ≤ C
  · rw [if_pos (by simpa using h)]
    simp [decide_eq_true h]
  · rw [if_neg (by simpa using h)]
    simp [decide_eq_false h]

/-- Witness for C3: a call on a row last reset on day 3, today being day 5,
resets the row before adding the cost 100. -/
theorem track_usage_accumulates_witness :
    trackApiUsage (some { quota_used := 7, last_reset := 3, is_exhausted := true }) 5 100 =
      { quota_used := 100, last_reset := 5, is_exhausted := decide (9500 ≤ 100) } :=
  (track_usage_accumulates 5 100 0).2.2
    { quota_used := 7, last_reset := 3, is_exhausted := true } (by decide)

/-- C4: `should_skip_query` returns true iff a skip-marker exists, its age
is strictly below the threshold, and it recorded zero new videos; in every
other case — no marker, marker exactly at the boundary, nonzero count,
cache backend unavailable or erroring — it returns false. -/
theorem should_skip_query_iff (b : CacheBackend) (now : Int) (h : Nat) :
    should_skip_query b now h = true ↔
      ∃ m : SkipMarker, b = CacheBackend.marker (some m) ∧
        now - m.last_attempt < (h : Int) * 3600 ∧ m.new_videos = 0 := by
  cases b with
  | unavailable => simp [should_skip_query]
  | backendError => simp [should_skip_query]
  | marker m =>
      cases m with
      | none => simp [should_skip_query]
      | some d => simp [should_skip_query, and_assoc]

/-- C8: an iteration whose fetch fails with the all-credentials-exhausted
message sleeps the fixed 3600-second backoff instead of the normal
interval (the `continue` skips the interval sleep); any failure whose
lowered text matches neither "exhausted" nor "quota" — and any success —
sleeps the normal interval; and the rotation index advances regardless. -/
theorem scheduler_backoff (queries : List String) (fo : String → IterOutcome)
    (interval idx : Nat) :
    iterSleeps (.err allExhaustedMsg) interval = [3600] ∧
    (∀ msg : String, strContains (strLower msg) "exhausted" = false →
      strContains (strLower msg) "quota" = false →
      iterSleeps (.err msg) interval = [interval]) ∧
    (∀ k : Nat, iterSleeps (.ok k) interval = [interval]) ∧
    (schedIter queries fo interval idx).1 = idx + 1 := by
  refine ⟨?_, ?_, fun k => rfl, rfl⟩
  · have hx : (strContains (strLower allExhaustedMsg) "exhausted"
        || strContains (strLower allExhaustedMsg) "quota") = true := by decide
    simp [iterSleeps, hx]
  · intro msg h1 h2
    simp [iterSleeps, h1, h2]

/-- Witness for C8: a failure unrelated to quota sleeps the normal
interval. -/
theorem scheduler_backoff_witness :
    iterSleeps (.err "database timeout") 10 = [10] :=
  (scheduler_backoff [] (fun _ => IterOutcome.ok 0) 10 0).2.1
    "database timeout" (by decide) (by decide)

/-- C9: with rotation list ["a","b","c"], the first three iterations fetch
exactly the queries "a", "b", "c" in that order, whatever each fetch
returns; and the rotation index advances by exactly one per iteration,
success or failure. -/
theorem scheduler_rotation (fo : String → IterOutcome) (interval : Nat) :
    (schedRun ["a", "b", "c"] fo interval 3).2 = ["a", "b", "c"] ∧
    (∀ (queries : List String) (fo2 : String → IterOutcome) (n : Nat),
      0 < queries.length → (schedRun queries fo2 interval n).1 = n) := by
  constructor
  · rfl
  · intro queries fo2 n hq
    induction n with
    | zero => rfl
    | succ n ih => simp [schedRun, schedIter, ih]

/-- Witness for C9: five iterations over a one-query list leave the index
at five even though every fetch fails. -/
theorem scheduler_rotation_witness :
    (schedRun ["a"] (fun _ => IterOutcome.err "x") 7 5).1 = 5 :=
  (scheduler_rotation (fun _ => IterOutcome.ok 0) 7).2
    ["a"] (fun _ => IterOutcome.err "x") 5 (by decide)

/-- C10: calling `start` while the scheduler is running returns with the
state unchanged (no second worker is spawned), and from the initial state
every sequence of start/stop calls leaves at most one worker thread alive —
the one the `thread` handle of a running scheduler refers to. -/
theorem single_worker_invariant :
    (∀ s : FetcherState, s.running = true → startFetcher s = s) ∧
    (∀ ops : List FetcherOp, (runOps ops initFetcher).alive ≤ 1) := by
  constructor
  · intro s hs; simp [startFetcher, hs]
  · have inv : ∀ (ops : List FetcherOp) (s : FetcherState),
        s.alive = (if s.running then 1 else 0) →
        (runOps ops s).alive = (if (runOps ops s).running then 1 else 0) := by
      intro ops
      induction ops with
      | nil => intro s hs; exact hs
      | cons op rest ih =>
          intro s hs
          have hstep : (applyOp s op).alive = (if (applyOp s op).running then 1 else 0) := by
            cases op with
            | startOp =>
                by_cases h : s.running
                · simpa [applyOp, startFetcher, h] using hs
                · simp [applyOp, startFetcher, h] at hs ⊢
                  omega
            | stopOp => simp [applyOp, stopFetcher]
          simpa [runOps, List.foldl_cons] using ih (applyOp s op) hstep
    intro ops
    have h := inv ops initFetcher (by simp [initFetcher])
    rw [h]
    split <;> omega

/-- Witness for C10: `start` on a running scheduler is the identity. -/
theorem single_worker_invariant_witness :
    startFetcher { running := true, thread := some 0, next_id := 1, alive := 1 } =
      { running := true, thread := some 0, next_id := 1, alive := 1 } :=
  single_worker_invariant.1 _ rfl

/-- Helper: a store none of whose rows carries the id has no find? hit. -/
theorem find_none_of_not_mem (v : String) (s : List VideoRow)
    (h : ∀ r ∈ s, r.video_id ≠ v) :
    s.find? (fun r => r.video_id == v) = none := by
  apply List.find?_eq_none.mpr
  intro r hr
  simpa using h r hr

/-- Helper: appending the one matching row to a store of non-matching rows
makes it the find? hit. -/
theorem find_append_single (v : String) (r0 : VideoRow) (s : List VideoRow)
    (h : ∀ r ∈ s, r.video_id ≠ v) (h0 : r0.video_id = v) :
    (s ++ [r0]).find? (fun r => r.video_id == v) = some r0 := by
  induction s with
  | nil => simp [h0]
  | cons a t ih =>
      have ha : (a.video_id == v) = false := by
        simpa using h a (by simp)
      simp only [List.cons_append, List.find?_cons, ha]
      exact ih (fun r hr => h r (by simp [hr]))

/-- Helper: `updateFirst` walks past non-matching rows and rewrites the
matching row at the end. -/
theorem updateFirst_append (d : VideoData) (s : List VideoRow) (r0 : VideoRow)
    (h : ∀ r ∈ s, r.video_id ≠ d.video_id) (h0 : r0.video_id = d.video_id) :
    updateFirst d (s ++ [r0]) = s ++ [updateRow r0 d] := by
  induction s with
  | nil => simp [updateFirst, h0]
  | cons a t ih =>
      have ha : (a.video_id == d.video_id) = false := by
        simpa using h a (by simp)
      simp only [List.cons_append, updateFirst, ha, Bool.false_eq_true, if_false,
        List.cons.injEq, true_and]
      exact ih (fun r hr => h r (by simp [hr]))

/-- Helper: filtering by an id no row carries gives the empty list. -/
theorem filter_nil_of_not_mem (v : String) (s : List VideoRow)
    (h : ∀ r ∈ s, r.video_id ≠ v) :
    s.filter (fun r => r.video_id == v) = [] := by
  apply List.filter_eq_nil_iff.mpr
  intro r hr
  simpa using h r hr

/-- C1: upsert semantics.  Ingesting an absent external id inserts a row
(counted by stored-count); re-ingesting the same id with different mutable
fields updates in place (not counted), and afterwards the store holds
exactly one row with that id, carrying the second item's field values and
the first ingestion's created timestamp. -/
theorem upsert_double_ingest (store : List VideoRow) (d1 d2 : VideoData)
    (t1 t2 : Nat) (dur : String) (vc : Int)
    (hid : d2.video_id = d1.video_id)
    (habs : ∀ r ∈ store, r.video_id ≠ d1.video_id)
    (hdur : d2.duration = some dur) (hvc : d2.view_count = some vc) :
    (upsert store d1 t1).2 = true ∧
    (upsert (upsert store d1 t1).1 d2 t2).2 = false ∧
    ((upsert (upsert store d1 t1).1 d2 t2).1.filter
        (fun r => r.video_id == d1.video_id))
      = [{ video_id := d1.video_id, snippet := d2.snippet, duration := some dur,
           view_count := some vc, created_at := t1 }] ∧
    (storeVideos store [d1] t1).2 = 1 ∧
    (storeVideos (upsert store d1 t1).1 [d2] t2).2 = 0 := by
  have hf1 : store.find? (fun r => r.video_id == d1.video_id) = none :=
    find_none_of_not_mem _ _ habs
  have h1 : upsert store d1 t1 = (store ++ [insertRow d1 t1], true) := by
    simp [upsert, hf1]
  have hr1id : (insertRow d1 t1).video_id = d1.video_id := rfl
  have habs2 : ∀ r ∈ store, r.video_id ≠ d2.video_id := by
    intro r hr
    rw [hid]
    exact habs r hr
  have hf2 : (store ++ [insertRow d1 t1]).find? (fun r => r.video_id == d2.video_id)
      = some (insertRow d1 t1) := by
    rw [hid]
    exact find_append_single _ _ _ habs hr1id
  have h2 : upsert (store ++ [insertRow d1 t1]) d2 t2
      = (updateFirst d2 (store ++ [insertRow d1 t1]), false) := by
    simp [upsert, hf2]
  have hup : updateFirst d2 (store ++ [insertRow d1 t1])
      = store ++ [updateRow (insertRow d1 t1) d2] :=
    updateFirst_append _ _ _ habs2 (by rw [hr1id, hid])
  have hrow : updateRow (insertRow d1 t1) d2
      = { video_id := d1.video_id, snippet := d2.snippet, duration := some dur,
          view_count := some vc, created_at := t1 } := by
    simp [updateRow, insertRow, hdur, hvc]
  refine ⟨by rw [h1], ?_, ?_, ?_, ?_⟩
  · rw [h1, h2]
  · rw [h1]
    simp only [h2, hup, hrow, List.filter_append]
    rw [filter_nil_of_not_mem _ _ habs]
    simp
  · simp [storeVideos, h1]
  · rw [h1]
    simp [storeVideos, h2]

/-- Witness for C1: ingesting id "v" into an empty store and then
re-ingesting it with changed fields. -/
theorem upsert_double_ingest_witness :
    (upsert [] vidD1 10).2 = true ∧
    (upsert (upsert [] vidD1 10).1 vidD2 20).2 = false ∧
    ((upsert (upsert [] vidD1 10).1 vidD2 20).1.filter
        (fun r => r.video_id == vidD1.video_id))
      = [{ video_id := vidD1.video_id, snippet := vidD2.snippet,
           duration := some "PT1M", view_count := some 5, created_at := 10 }] ∧
    (storeVideos [] [vidD1] 10).2 = 1 ∧
    (storeVideos (upsert [] vidD1 10).1 [vidD2] 20).2 = 0 :=
  upsert_double_ingest [] vidD1 vidD2 10 20 "PT1M" 5 rfl (by simp) rfl rfl

/-- C7: a fetch without a continuation token returns immediately when the
skip-marker check succeeds — an empty, skipped-flagged result, no remote
call, no quota charge, no store or query-fetch-state write (empty event
trace, store unchanged); otherwise, a fresh search-cache entry is returned
flagged served-from-cache, equally without remote call, charge or write. -/
theorem first_page_short_circuit (env : FetchEnv) (numKeys : Nat) (q : String)
    (now idx : Nat) (store : List VideoRow) (items : List VideoData)
    (hk : idx < numKeys) :
    (env.shouldSkip = true →
      fetch_videos env numKeys q none now idx store = (.skipped [], store, [])) ∧
    (env.shouldSkip = false → env.cachedResults = some items →
      fetch_videos env numKeys q none now idx store = (.cachedHit items, store, [])) := by
  obtain ⟨f, hf⟩ : ∃ f, numKeys - idx = f + 1 := ⟨numKeys - idx - 1, by omega⟩
  constructor
  · intro hs
    rw [fetch_videos, if_neg (by omega), hf]
    simp [fetchVideosAux, hs]
  · intro hs hc
    rw [fetch_videos, if_neg (by omega), hf]
    simp [fetchVideosAux, hs, hc]

/-- Witness for C7: with the skip-marker set, the fetch returns the skipped
result and performs no event at all. -/
theorem first_page_short_circuit_witness :
    fetch_videos envSkip 1 "q" none 0 0 [] = (.skipped [], [], []) :=
  (first_page_short_circuit envSkip 1 "q" 0 0 [] [] (by omega)).1 rfl

/-- Helper: the full effect trace of a successful fetch cycle that returned
at least one item, read off lines 96-219 of youtube_service.py: search call
and its 100-unit ledger commit, batched detail call and its 1-unit ledger
commit, the upsert writes followed by one commit, and the `SearchCache`
write with the final commit. -/
theorem fetch_success_trace (env : FetchEnv) (numKeys : Nat) (q : String)
    (pt : Option String) (now idx : Nat) (store : List VideoRow) (r : SearchOk)
    (ds : List (String × String × Int))
    (hs : env.shouldSkip = false) (hc : env.cachedResults = none)
    (hm : env.quotaMirror idx = false) (hk : idx < numKeys)
    (hr : env.search idx = .ok r) (hd : env.details idx = .ok ds)
    (hne : r.items ≠ []) :
    fetch_videos env numKeys q pt now idx store =
      (.success (r.items.map (buildVideoData ds)) r.nextPageToken
          (storeVideos store (r.items.map (buildVideoData ds)) now).2,
        (storeVideos store (r.items.map (buildVideoData ds)) now).1,
        [DBEvent.remoteSearch idx, .ledgerWrite idx 100, .commit,
         .remoteDetails idx r.items.length, .ledgerWrite idx 1, .commit]
          ++ (r.items.map (buildVideoData ds)).map
              (fun v => DBEvent.upsertWrite v.video_id)
          ++ [DBEvent.commit, .fetchStateWrite q, .commit]) := by
  obtain ⟨f, hf⟩ : ∃ f, numKeys - idx = f + 1 := ⟨numKeys - idx - 1, by omega⟩
  rw [fetch_videos, if_neg (by omega), hf]
  have hne2 : r.items.isEmpty = false := by
    cases h : r.items with
    | nil => exact absurd h hne
    | cons a t => rfl
  simp [fetchVideosAux, hs, hc, hm, hr, hd, hne2]

/-- Helper: upsert-write events contribute nothing to a filterMap that
ignores them. -/
theorem filterMap_upsert_nil (g : DBEvent → Option (Nat × Nat))
    (hg : ∀ s, g (DBEvent.upsertWrite s) = none) (vs : List VideoData) :
    (vs.map (fun v => DBEvent.upsertWrite v.video_id)).filterMap g = [] := by
  induction vs with
  | nil => rfl
  | cons a t ih => simp [List.filterMap_cons, hg, ih]

/-- Helper: upsert-write events contribute nothing to a countP that ignores
them. -/
theorem countP_upsert_zero (p : DBEvent → Bool)
    (hp : ∀ s, p (DBEvent.upsertWrite s) = false) (vs : List VideoData) :
    (vs.map (fun v => DBEvent.upsertWrite v.video_id)).countP p = 0 := by
  induction vs with
  | nil => rfl
  | cons a t ih => simp [List.countP_cons, hp, ih]

/-- C5 (amended): a successful fetch that returned `k > 0` items issues
exactly one batched item-detail call, for all `k` ids at once, and charges
1 quota unit for it — a flat unit, not one per requested id — in addition
to the 100 units charged for the search call. -/
theorem detail_call_quota_charge (env : FetchEnv) (numKeys : Nat) (q : String)
    (pt : Option String) (now idx : Nat) (store : List VideoRow) (r : SearchOk)
    (ds : List (String × String × Int))
    (hs : env.shouldSkip = false) (hc : env.cachedResults = none)
    (hm : env.quotaMirror idx = false) (hk : idx < numKeys)
    (hr : env.search idx = .ok r) (hd : env.details idx = .ok ds)
    (hne : r.items ≠ []) :
    detailCalls (fetch_videos env numKeys q pt now idx store).2.2
      = [(idx, r.items.length)] ∧
    ledgerCharges (fetch_videos env numKeys q pt now idx store).2.2
      = [(idx, 100), (idx, 1)] := by
  rw [fetch_success_trace env numKeys q pt now idx store r ds hs hc hm hk hr hd hne]
  constructor
  · simp [detailCalls, List.filterMap_append, List.filterMap_cons,
      filterMap_upsert_nil
        (fun e => match e with | .remoteDetails k n => some (k, n) | _ => none)
        (fun s => rfl)]
  · simp [ledgerCharges, List.filterMap_append, List.filterMap_cons,
      filterMap_upsert_nil
        (fun e => match e with | .ledgerWrite k c => some (k, c) | _ => none)
        (fun s => rfl)]

/-- Witness for C5: the concrete two-item run charges the search 100 units
and the two-id detail call one unit. -/
theorem detail_call_quota_charge_witness :
    detailCalls (fetch_videos envOk 1 "q" none 7 0 []).2.2
      = [(0, searchOkTwo.items.length)] ∧
    ledgerCharges (fetch_videos envOk 1 "q" none 7 0 []).2.2
      = [(0, 100), (0, 1)] :=
  detail_call_quota_charge envOk 1 "q" none 7 0 [] searchOkTwo detailsTwo
    rfl rfl rfl (by omega) rfl rfl (by decide)

/-- Counterexample for C5 as stated: with `k = 2` requested ids the cycle's
charges are 100 then 1 — not 100 then `k`. -/
theorem detail_charge_counterexample :
    searchOkTwo.items.length = 2 ∧
    ledgerCharges (fetch_videos envOk 1 "q" none 7 0 []).2.2 = [(0, 100), (0, 1)] ∧
    ¬ ledgerCharges (fetch_videos envOk 1 "q" none 7 0 []).2.2
        = [(0, 100), (0, searchOkTwo.items.length)] := by
  decide

/-- C6 (amended): the effect schedule of one successful fetch cycle.  All
the cycle's upsert writes lie together in a single transaction, committed
once after the whole batch (the upsert batch is all-or-nothing), but the
cycle is not one transaction: each quota-ledger write is committed
immediately in its own transaction before the upserts, and the query-fetch
state commits separately at the end — four commits per cycle in all. -/
theorem fetch_commit_schedule (env : FetchEnv) (numKeys : Nat) (q : String)
    (pt : Option String) (now idx : Nat) (store : List VideoRow) (r : SearchOk)
    (ds : List (String × String × Int))
    (hs : env.shouldSkip = false) (hc : env.cachedResults = none)
    (hm : env.quotaMirror idx = false) (hk : idx < numKeys)
    (hr : env.search idx = .ok r) (hd : env.details idx = .ok ds)
    (hne : r.items ≠ []) :
    (fetch_videos env numKeys q pt now idx store).2.2 =
      [DBEvent.remoteSearch idx, .ledgerWrite idx 100, .commit,
       .remoteDetails idx r.items.length, .ledgerWrite idx 1, .commit]
        ++ (r.items.map (buildVideoData ds)).map
            (fun v => DBEvent.upsertWrite v.video_id)
        ++ [DBEvent.commit, .fetchStateWrite q, .commit] ∧
    commitCount (fetch_videos env numKeys q pt now idx store).2.2 = 4 := by
  rw [fetch_success_trace env numKeys q pt now idx store r ds hs hc hm hk hr hd hne]
  refine ⟨rfl, ?_⟩
  simp [commitCount, List.countP_append, List.countP_cons,
    countP_upsert_zero
      (fun e => match e with | DBEvent.commit => true | _ => false)
      (fun s => rfl)]

/-- Witness for C6: the schedule of the concrete two-item run. -/
theorem fetch_commit_schedule_witness :
    (fetch_videos envOk 1 "q" none 7 0 []).2.2 =
      [DBEvent.remoteSearch 0, .ledgerWrite 0 100, .commit,
       .remoteDetails 0 searchOkTwo.items.length, .ledgerWrite 0 1, .commit]
        ++ (searchOkTwo.items.map (buildVideoData detailsTwo)).map
            (fun v => DBEvent.upsertWrite v.video_id)
        ++ [DBEvent.commit, .fetchStateWrite "q", .commit] ∧
    commitCount (fetch_videos envOk 1 "q" none 7 0 []).2.2 = 4 :=
  fetch_commit_schedule envOk 1 "q" none 7 0 [] searchOkTwo detailsTwo
    rfl rfl rfl (by omega) rfl rfl (by decide)

/-- Counterexample for C6 as stated: a successful cycle performs four
commits, not a single commit at the end. -/
theorem commit_schedule_counterexample :
    commitCount (fetch_videos envOk 1 "q" none 7 0 []).2.2 = 4 ∧
    ¬ commitCount (fetch_videos envOk 1 "q" none 7 0 []).2.2 = 1 := by
  decide


/-- Helper: the per-event key lower bound weakens to smaller bounds. -/
theorem evKeyGeB_mono (j k : Nat) (e : DBEvent) (h : j ≤ k)
    (he : evKeyGeB k e = true) : evKeyGeB j e = true := by
  cases e <;> simp [evKeyGeB] at he ⊢ <;> omega

/-- Helper: `searchCount` distributes over append. -/
theorem searchCount_append (l1 l2 : List DBEvent) :
    searchCount (l1 ++ l2) = searchCount l1 + searchCount l2 := by
  simp [searchCount, List.countP_append]

/-- Helper: a leading search event adds one to `searchCount`. -/
theorem searchCount_cons_search (k : Nat) (l : List DBEvent) :
    searchCount (DBEvent.remoteSearch k :: l) = searchCount l + 1 := by
  simp [searchCount, List.countP_cons]

/-- Helper: upsert-write events are not search events. -/
theorem searchCount_upsert_map (vs : List VideoData) :
    searchCount (vs.map (fun v => DBEvent.upsertWrite v.video_id)) = 0 := by
  induction vs with
  | nil => rfl
  | cons a t ih =>
      rw [List.map_cons]
      rw [show searchCount (DBEvent.upsertWrite a.video_id ::
        t.map (fun v => DBEvent.upsertWrite v.video_id)) =
        searchCount (t.map (fun v => DBEvent.upsertWrite v.video_id)) from by
          simp [searchCount, List.countP_cons]]
      exact ih

/-- Helper: `searchCount` is empty on the empty trace. -/
theorem searchCount_nil : searchCount [] = 0 := rfl

/-- Helper: a leading non-search event leaves `searchCount` unchanged. -/
theorem searchCount_cons_other (e : DBEvent) (l : List DBEvent)
    (he : (match e with | DBEvent.remoteSearch _ => true | _ => false) = false) :
    searchCount (e :: l) = searchCount l := by
  simp [searchCount, List.countP_cons, he]

/-- Helper: a map producing no search events contributes nothing to
`searchCount`. -/
theorem searchCount_map_zero {α : Type _} (f : α → DBEvent)
    (hf : ∀ a, (match f a with | DBEvent.remoteSearch _ => true | _ => false) = false)
    (l : List α) : searchCount (l.map f) = 0 := by
  induction l with
  | nil => rfl
  | cons a t ih =>
      rw [List.map_cons, searchCount_cons_other _ _ (hf a)]
      exact ih

/-- Helper: one fetch performs at most `fuel` remote search attempts (the
recursion of line 230 consumes one credential per attempt, whether the
failing call was the search or the detail call). -/
theorem searchCount_aux_le (env : FetchEnv) (numKeys : Nat) (q : String)
    (pt : Option String) (now : Nat) (hm : ∀ k, env.quotaMirror k = false) :
    ∀ (fuel idx : Nat) (store : List VideoRow),
      searchCount (fetchVideosAux env numKeys q pt now fuel idx store).2.2 ≤ fuel := by
  intro fuel
  induction fuel with
  | zero => intro idx store; simp [fetchVideosAux, searchCount]
  | succ f ih =>
      intro idx store
      simp only [fetchVideosAux, hm idx, Bool.false_eq_true, if_false]
      split
      · simp [searchCount]
      · split
        · simp [searchCount]
        · split
          · -- search call succeeded
            rename_i r heq
            split
            · -- no items: one search event, nothing else
              simp only [searchCount_append, searchCount_cons_search,
                searchCount_cons_other, searchCount_nil]
              omega
            · split
              · -- both calls succeeded: exactly one search event
                rename_i ds heq2
                have hmap1 : searchCount (List.map
                    ((fun v => DBEvent.upsertWrite v.video_id) ∘ buildVideoData ds)
                    r.items) = 0 := searchCount_map_zero _ (fun a => rfl) _
                have hmap2 : searchCount ((r.items.map (buildVideoData ds)).map
                    (fun v => DBEvent.upsertWrite v.video_id)) = 0 :=
                  searchCount_upsert_map _
                simp only [searchCount_append, searchCount_cons_search,
                  searchCount_cons_other, searchCount_nil, hmap1, hmap2]
                omega
              · -- detail call failed after the committed search charge
                rename_i status body heq2
                split
                · split
                  · have h := ih (idx + 1) store
                    simp only [searchCount_append, searchCount_cons_search,
                      searchCount_cons_other, searchCount_nil]
                    omega
                  · simp only [searchCount_append, searchCount_cons_search,
                      searchCount_cons_other, searchCount_nil]
                    omega
                · simp only [searchCount_append, searchCount_cons_search,
                    searchCount_cons_other, searchCount_nil]
                  omega
          · -- search call failed
            split
            · split
              · have h := ih (idx + 1) store
                simp only [searchCount_cons_search]
                omega
              · simp [searchCount]
            · simp [searchCount]

/-- Helper: the per-event bound weakens over a whole trace. -/
theorem all_keyGe_mono (j k : Nat) (h : j ≤ k) (l : List DBEvent)
    (hl : l.all (evKeyGeB k) = true) : l.all (evKeyGeB j) = true := by
  rw [List.all_eq_true] at hl ⊢
  intro e he
  exact evKeyGeB_mono j k e h (hl e he)

/-- Helper: a leading in-bound event reduces the trace bound to its tail. -/
theorem all_keyGe_cons (j : Nat) (e : DBEvent) (l : List DBEvent)
    (he : evKeyGeB j e = true) :
    ((e :: l).all (evKeyGeB j)) = l.all (evKeyGeB j) := by
  rw [List.all_cons, he, Bool.true_and]

/-- Helper: upsert-write events carry no credential index. -/
theorem all_keyGe_upsert_map (j : Nat) (vs : List VideoData) :
    (vs.map (fun v => DBEvent.upsertWrite v.video_id)).all (evKeyGeB j) = true := by
  induction vs with
  | nil => rfl
  | cons a t ih =>
      rw [List.map_cons, all_keyGe_cons j (DBEvent.upsertWrite a.video_id) _ rfl]
      exact ih

/-- Helper: a map producing only keyless events satisfies any bound. -/
theorem all_keyGe_map {α : Type _} (j : Nat) (f : α → DBEvent)
    (hf : ∀ a, evKeyGeB j (f a) = true) (l : List α) :
    (l.map f).all (evKeyGeB j) = true := by
  induction l with
  | nil => rfl
  | cons a t ih =>
      rw [List.map_cons, all_keyGe_cons j (f a) _ (hf a)]
      exact ih

/-- Helper: every event of a fetch that starts at credential `idx` concerns
credential `idx` or a later one — earlier credentials are never called,
charged or written again (no wraparound). -/
theorem aux_events_keyGe (env : FetchEnv) (numKeys : Nat) (q : String)
    (pt : Option String) (now : Nat) (hm : ∀ k, env.quotaMirror k = false) :
    ∀ (fuel idx : Nat) (store : List VideoRow),
      ((fetchVideosAux env numKeys q pt now fuel idx store).2.2).all
        (evKeyGeB idx) = true := by
  intro fuel
  induction fuel with
  | zero => intro idx store; rfl
  | succ f ih =>
      intro idx store
      simp only [fetchVideosAux, hm idx, Bool.false_eq_true, if_false]
      split
      · rfl
      · split
        · rfl
        · split
          · -- search call succeeded
            rename_i r heq
            split
            · simp [evKeyGeB]
            · split
              · -- both calls succeeded
                rename_i ds heq2
                have hmap1 : (List.map
                    ((fun v => DBEvent.upsertWrite v.video_id) ∘ buildVideoData ds)
                    r.items).all (evKeyGeB idx) = true :=
                  all_keyGe_map idx
                    ((fun v => DBEvent.upsertWrite v.video_id) ∘ buildVideoData ds)
                    (fun a => rfl) r.items
                have hmap2 : ((r.items.map (buildVideoData ds)).map
                    (fun v => DBEvent.upsertWrite v.video_id)).all (evKeyGeB idx) = true :=
                  all_keyGe_upsert_map _ _
                simp [List.all_append, List.all_cons, evKeyGeB, hmap1, hmap2]
              · -- detail call failed after the committed search charge
                rename_i status body heq2
                split
                · split
                  · simp only [List.all_append, Bool.and_eq_true]
                    refine ⟨⟨by simp [evKeyGeB], by simp [evKeyGeB]⟩, ?_⟩
                    exact all_keyGe_mono idx (idx + 1) (by omega) _
                      (ih (idx + 1) store)
                  · simp [evKeyGeB]
                · simp [evKeyGeB]
          · -- search call failed
            split
            · split
              · rw [all_keyGe_cons idx (DBEvent.remoteSearch idx) _ (by simp [evKeyGeB])]
                exact all_keyGe_mono idx (idx + 1) (by omega) _
                  (ih (idx + 1) store)
              · simp [evKeyGeB]
            · simp [evKeyGeB]

/-- C2 (amended): credential-exhaustion failover.  On a quota-exceeded
remote error (HTTP 403 whose rendering contains `quotaExceeded`) — whether
it is the search call or the batched detail call that fails — the client
advances to the next credential without marking the active credential
exhausted, and, when one remains, retries the entire fetch with the new
credential; when none remains the fetch fails with the
all-credentials-exhausted condition.  The handler writes nothing to the
ledger: a failing search call leaves the failed credential's ledger
entirely untouched, and a failing detail call leaves exactly the 100-unit
search charge that had already been committed before the failure.  Any
other remote error, from either call, is surfaced to the caller without
retry, and the remote search attempts of one fetch never exceed the number
of credentials (no wraparound past the end of the list). -/
theorem fetch_quota_failover (env : FetchEnv) (numKeys : Nat) (q : String)
    (pt : Option String) (now idx : Nat) (store : List VideoRow) (body : String)
    (hs : env.shouldSkip = false) (hc : env.cachedResults = none)
    (hm : ∀ k, env.quotaMirror k = false) (hk : idx < numKeys) :
    (env.search idx = .httpErr 403 body → strContains body "quotaExceeded" = true →
      idx + 1 < numKeys →
      fetch_videos env numKeys q pt now idx store =
        ((fetch_videos env numKeys q pt now (idx + 1) store).1,
         (fetch_videos env numKeys q pt now (idx + 1) store).2.1,
         DBEvent.remoteSearch idx ::
           (fetch_videos env numKeys q pt now (idx + 1) store).2.2) ∧
      (∀ c, DBEvent.ledgerWrite idx c ∉
        (fetch_videos env numKeys q pt now idx store).2.2)) ∧
    (env.search idx = .httpErr 403 body → strContains body "quotaExceeded" = true →
      numKeys ≤ idx + 1 →
      fetch_videos env numKeys q pt now idx store
        = (.allKeysExhausted, store, [.remoteSearch idx])) ∧
    (∀ r : SearchOk, env.search idx = .ok r → r.items ≠ [] →
      env.details idx = .httpErr 403 body → strContains body "quotaExceeded" = true →
      idx + 1 < numKeys →
      fetch_videos env numKeys q pt now idx store =
        ((fetch_videos env numKeys q pt now (idx + 1) store).1,
         (fetch_videos env numKeys q pt now (idx + 1) store).2.1,
         [DBEvent.remoteSearch idx, .ledgerWrite idx 100, .commit]
           ++ [DBEvent.remoteDetails idx r.items.length]
           ++ (fetch_videos env numKeys q pt now (idx + 1) store).2.2) ∧
      (∀ c, DBEvent.ledgerWrite idx c ∈
          (fetch_videos env numKeys q pt now idx store).2.2 → c = 100)) ∧
    (∀ r : SearchOk, env.search idx = .ok r → r.items ≠ [] →
      env.details idx = .httpErr 403 body → strContains body "quotaExceeded" = true →
      numKeys ≤ idx + 1 →
      fetch_videos env numKeys q pt now idx store
        = (.allKeysExhausted, store,
           [DBEvent.remoteSearch idx, .ledgerWrite idx 100, .commit]
             ++ [DBEvent.remoteDetails idx r.items.length])) ∧
    (∀ status : Nat, env.search idx = .httpErr status body →
      (status == 403 && strContains body "quotaExceeded") = false →
      fetch_videos env numKeys q pt now idx store
        = (.apiError status body, store, [.remoteSearch idx])) ∧
    (∀ (status : Nat) (r : SearchOk), env.search idx = .ok r → r.items ≠ [] →
      env.details idx = .httpErr status body →
      (status == 403 && strContains body "quotaExceeded") = false →
      fetch_videos env numKeys q pt now idx store
        = (.apiError status body, store,
           [DBEvent.remoteSearch idx, .ledgerWrite idx 100, .commit]
             ++ [DBEvent.remoteDetails idx r.items.length])) ∧
    searchCount (fetch_videos env numKeys q pt now idx store).2.2 ≤ numKeys := by
  have hnz : numKeys ≠ 0 := by omega
  obtain ⟨f, hf⟩ : ∃ f, numKeys - idx = f + 1 := ⟨numKeys - idx - 1, by omega⟩
  have hunfold : fetch_videos env numKeys q pt now idx store
      = fetchVideosAux env numKeys q pt now (f + 1) idx store := by
    rw [fetch_videos, if_neg hnz, hf]
  refine ⟨?_, ?_, ?_, ?_, ?_, ?_, ?_⟩
  · intro hr hqe hlt
    have hf2 : numKeys - (idx + 1) = f := by omega
    have hunf2 : fetch_videos env numKeys q pt now (idx + 1) store
        = fetchVideosAux env numKeys q pt now f (idx + 1) store := by
      rw [fetch_videos, if_neg hnz, hf2]
    have heq : fetch_videos env numKeys q pt now idx store
        = ((fetchVideosAux env numKeys q pt now f (idx + 1) store).1,
           (fetchVideosAux env numKeys q pt now f (idx + 1) store).2.1,
           DBEvent.remoteSearch idx ::
             (fetchVideosAux env numKeys q pt now f (idx + 1) store).2.2) := by
      rw [hunfold]
      simp [fetchVideosAux, hs, hc, hm idx, hr, hqe, hlt]
    constructor
    · rw [heq, hunf2]
    · intro c hmem
      rw [heq] at hmem
      rcases List.mem_cons.mp hmem with h1 | h2
      · simp at h1
      · have h3 := aux_events_keyGe env numKeys q pt now hm f (idx + 1) store
        rw [List.all_eq_true] at h3
        have h4 := h3 _ h2
        simp [evKeyGeB] at h4
  · intro hr hqe hge
    have hnlt : ¬ idx + 1 < numKeys := by omega
    rw [hunfold]
    simp [fetchVideosAux, hs, hc, hm idx, hr, hqe, hnlt]
  · intro r hr hne hd hqe hlt
    have hne2 : r.items.isEmpty = false := by
      cases h : r.items with
      | nil => exact absurd h hne
      | cons a t => rfl
    have hf2 : numKeys - (idx + 1) = f := by omega
    have hunf2 : fetch_videos env numKeys q pt now (idx + 1) store
        = fetchVideosAux env numKeys q pt now f (idx + 1) store := by
      rw [fetch_videos, if_neg hnz, hf2]
    have heq : fetch_videos env numKeys q pt now idx store
        = ((fetchVideosAux env numKeys q pt now f (idx + 1) store).1,
           (fetchVideosAux env numKeys q pt now f (idx + 1) store).2.1,
           [DBEvent.remoteSearch idx, .ledgerWrite idx 100, .commit]
             ++ [DBEvent.remoteDetails idx r.items.length]
             ++ (fetchVideosAux env numKeys q pt now f (idx + 1) store).2.2) := by
      rw [hunfold]
      simp [fetchVideosAux, hs, hc, hm idx, hr, hd, hne2, hqe, hlt]
    constructor
    · rw [heq, hunf2]
    · intro c hmem
      rw [heq] at hmem
      simp only [List.append_assoc, List.cons_append, List.nil_append,
        List.mem_cons, List.mem_append] at hmem
      rcases hmem with h1 | h1 | h1 | h1 | h1
      · exact absurd h1 (by simp)
      · simp at h1
        exact h1
      · exact absurd h1 (by simp)
      · exact absurd h1 (by simp)
      · have h3 := aux_events_keyGe env numKeys q pt now hm f (idx + 1) store
        rw [List.all_eq_true] at h3
        have h4 := h3 _ h1
        simp [evKeyGeB] at h4
  · intro r hr hne hd hqe hge
    have hne2 : r.items.isEmpty = false := by
      cases h : r.items with
      | nil => exact absurd h hne
      | cons a t => rfl
    have hnlt : ¬ idx + 1 < numKeys := by omega
    rw [hunfold]
    simp [fetchVideosAux, hs, hc, hm idx, hr, hd, hne2, hqe, hnlt]
  · intro status hr hcond
    have hcond2 : ¬ (status = 403 ∧ strContains body "quotaExceeded" = true) := by
      rintro ⟨h1, h2⟩
      subst h1
      simp [h2] at hcond
    rw [hunfold]
    simp [fetchVideosAux, hs, hc, hm idx, hr, hcond, hcond2]
  · intro status r hr hne hd hcond
    have hne2 : r.items.isEmpty = false := by
      cases h : r.items with
      | nil => exact absurd h hne
      | cons a t => rfl
    have hcond2 : ¬ (status = 403 ∧ strContains body "quotaExceeded" = true) := by
      rintro ⟨h1, h2⟩
      subst h1
      simp [h2] at hcond
    rw [hunfold]
    simp [fetchVideosAux, hs, hc, hm idx, hr, hd, hne2, hcond, hcond2]
  · rw [hunfold]
    have h := searchCount_aux_le env numKeys q pt now hm (f + 1) idx store
    omega

/-- Witness for C2: with two credentials, a quota-exceeded error on
credential 0 — once from the search call, once from the detail call after
its committed 100-unit charge — makes the fetch equal the whole fetch
rerun with credential 1, preceded by the failed attempt's events. -/
theorem fetch_quota_failover_witness :
    (fetch_videos envFailover 2 "q" none 7 0 [] =
      ((fetch_videos envFailover 2 "q" none 7 1 []).1,
       (fetch_videos envFailover 2 "q" none 7 1 []).2.1,
       DBEvent.remoteSearch 0 ::
         (fetch_videos envFailover 2 "q" none 7 1 []).2.2)) ∧
    (fetch_videos envDetailFail 2 "q" none 7 0 [] =
      ((fetch_videos envDetailFail 2 "q" none 7 1 []).1,
       (fetch_videos envDetailFail 2 "q" none 7 1 []).2.1,
       [DBEvent.remoteSearch 0, .ledgerWrite 0 100, .commit]
         ++ [DBEvent.remoteDetails 0 searchOkTwo.items.length]
         ++ (fetch_videos envDetailFail 2 "q" none 7 1 []).2.2)) :=
  ⟨(((fetch_quota_failover envFailover 2 "q" none 7 0 [] bodyQuota
        rfl rfl (fun k => rfl) (by omega)).1) rfl (by decide) (by omega)).1,
   (((fetch_quota_failover envDetailFail 2 "q" none 7 0 [] bodyQuota
        rfl rfl (fun k => rfl) (by omega)).2.2.1) searchOkTwo rfl (by decide) rfl
        (by decide) (by omega)).1⟩

/-- Counterexample for C2 as stated: in a concrete failover run the
quota-exceeded condition fires on credential 0, the fetch still succeeds
via credential 1, yet replaying the cycle's ledger writes leaves
credential 0's ledger row untouched — its exhausted flag stays false, so
the client does not "mark the active credential exhausted". -/
theorem fetch_quota_failover_counterexample :
    envFailover.search 0 = .httpErr 403 bodyQuota ∧
    strContains bodyQuota "quotaExceeded" = true ∧
    (fetch_videos envFailover 2 "q" none 7 0 []).1
      = .success (searchOkTwo.items.map (buildVideoData detailsTwo)) none 2 ∧
    (applyEvents 7 [some (freshUsage 7), some (freshUsage 7)]
        (fetch_videos envFailover 2 "q" none 7 0 []).2.2).getD 0 none
      = some (freshUsage 7) ∧
    (freshUsage 7).is_exhausted = false := by
  decide
